import Mathlib

/-!
Shallow embedding of the netb (ayame) network-topology orchestrator:
`src/pkg/network/veth.go` (VethPair, Namespace, topology builder),
`src/unnamed/part_000` (DirectLink), and `src/pkg/state/state.go` (State).

External command execution (`RunIpLinkCreate`, `RunIpLinkDelete`,
`RunIpNetnsAdd`, `RunIpNetnsDelete`, `RunIpLinkSetNamespaces`,
`RunAssignCidrToNamespaces`) is modelled by an oracle `exec : Cmd → Bool`
deciding whether each issued command succeeds; every operation additionally
returns the list of commands it issued, in order.  Go's `net.ParseCIDR` is
external to the repository and is modelled by an oracle
`parse : String → Bool` telling whether a CIDR string parses.  Go pointer
mutation is modelled by returning updated values (and, where Go mutates
through a slice of pointers, by index-threaded updates on lists).  The
`dryrun`/`verbose` flags only suppress real execution inside the command
collaborator and are absorbed into the `exec` oracle.
-/

namespace Ayame

/-- Host-level commands issued through the command-execution collaborator. -/
inductive Cmd where
  | ipLinkCreate (l r : String)
  | ipLinkDelete (name : String)
  | ipNetnsAdd (name : String)
  | ipNetnsDelete (name : String)
  | ipLinkSetNs (dev ns : String)
  | assignCidr (dev ns cidr : String)
deriving DecidableEq, Repr

/-- Errors returned by the Go code (`fmt.Errorf` sites), one constructor per
site; external-command failures are `cmdFailed` unless the Go code wraps them
with context. -/
inductive Err where
  | alreadyCreated (l r : String)        -- VethPair.Create: "is already created"
  | notExist (l r : String)              -- VethPair.Destroy: "doesn't exist"
  | deviceAlreadyAttached (dev : String) -- Namespace.Attach: "is already attached"
  | alreadyConfigured (dev ns : String)  -- Namespace.Attach: "has been attached to namexpace"
  | parseCIDRFailed (cidr ns dev : String) -- Namespace.Attach: "failed to parse CIDR"
  | setNsFailed (dev ns : String)        -- Namespace.Attach: "failed to set device"
  | assignCidrFailed (cidr ns dev : String) -- Namespace.Attach: "failed to assign CIDR"
  | alreadyInactive (name : String)      -- Namespace.Destroy: "is already inactive"
  | notBusy (name : String)              -- DirectLink.Destroy: "is not busy"
  | alreadyBusy (name : String)          -- DirectLink.CreateLink: "has been already busy"
  | onlyOneLink (name ns : String)       -- InitNamespacesLinks: "have only 1 link"
  | overThreeLinks (name : String)       -- InitNamespacesLinks: "has over 3 links"
  | linkNotFound (name : String)         -- InitNamespacesLinks: "can't find device"
  | createLinksFailed (name : String) (e : Err) -- InitNamespacesLinks: "failed to create links"
  | invalidMode                          -- InitDirectLink: "invalid mode"
  | mustDestroyExisting                  -- InitAll: "must destroy existing resources"
  | noSavedState                         -- LoadStateFromFile: "no saved state"
  | unmarshalFailed                      -- LoadStateFromFile: json.Unmarshal error
  | cmdFailed (c : Cmd)                  -- unwrapped external-command failure
deriving DecidableEq, Repr

/-- Go `Veth` (veth.go): a named link endpoint with an attached flag. -/
structure Veth where
  name : String
  attached : Bool
deriving DecidableEq, Repr

/-- Go `VethPair` (veth.go): two endpoints created/destroyed as a unit. -/
structure VethPair where
  name : String
  left : Veth
  right : Veth
  active : Bool
deriving DecidableEq, Repr

/-- Modelled from the spec: `config.NamespaceDeviceConfig`; the `config`
package is not under src/; the spec's Device Config is
`{device-name-prefix, subnet (CIDR)}`, matched against the fields `Name` and
`Cidr` that veth.go reads. -/
structure NamespaceDeviceConfig where
  name : String
  cidr : String
deriving DecidableEq, Repr

/-- Go `RegisteredDeviceConfig` (veth.go): a device config plus a configured flag. -/
structure RegisteredDeviceConfig where
  device : NamespaceDeviceConfig
  configured : Bool
deriving DecidableEq, Repr

/-- Go `Namespace` (veth.go). -/
structure Namespace where
  name : String
  active : Bool
  devices : List RegisteredDeviceConfig
deriving DecidableEq, Repr

/-- Go `DirectLink` (part_000): wraps a VethPair, adds a busy flag. -/
structure DirectLink where
  pair : VethPair
  name : String
  busy : Bool
deriving DecidableEq, Repr

/-- Modelled from the spec: `Bridge`; the bridge source file is not under
src/; the spec (§4.3) makes Bridge a structural peer of Direct Link honoring
the same busy semantics, so it is modelled with a name and a busy flag. -/
structure Bridge where
  name : String
  busy : Bool
deriving DecidableEq, Repr

def dummyVeth : Veth := ⟨"", false⟩

def dummyNs : Namespace := ⟨"", false, []⟩

def dummyLink : DirectLink := ⟨⟨"", dummyVeth, dummyVeth, false⟩, "", false⟩

/-- Go `VethPair.Create` (veth.go:53-66): fails if already active, issues the
pair-creation command, marks active on success. -/
def VethPair.create (exec : Cmd → Bool) (v : VethPair) :
    Option Err × VethPair × List Cmd :=
  if v.active then (some (.alreadyCreated v.left.name v.right.name), v, [])
  else
    let cmd := Cmd.ipLinkCreate v.left.name v.right.name
    if exec cmd then (none, { v with active := true }, [cmd])
    else (some (.cmdFailed cmd), v, [cmd])

/-- Go `VethPair.Destroy` (veth.go:68-99): fails if not active; deletes the left
endpoint if unattached, else the right if unattached; if both endpoints are
attached it deletes nothing and returns nil; `Active` is cleared only on an
actual deletion. -/
def VethPair.destroy (exec : Cmd → Bool) (v : VethPair) :
    Option Err × VethPair × List Cmd :=
  if !v.active then (some (.notExist v.left.name v.right.name), v, [])
  else if !v.left.attached then
    let cmd := Cmd.ipLinkDelete v.left.name
    if exec cmd then (none, { v with active := false }, [cmd])
    else (some (.cmdFailed cmd), v, [cmd])
  else if !v.right.attached then
    let cmd := Cmd.ipLinkDelete v.right.name
    if exec cmd then (none, { v with active := false }, [cmd])
    else (some (.cmdFailed cmd), v, [cmd])
  else (none, v, [])

/-- Go `InitVethPair` (veth.go:38-51): builds the pair with deterministic
endpoint names and runs `Create`. -/
def InitVethPair (exec : Cmd → Bool) (name : String) :
    Option Err × VethPair × List Cmd :=
  let pair : VethPair :=
    { name := name
      left := { name := name ++ "-left", attached := false }
      right := { name := name ++ "-right", attached := false }
      active := false }
  pair.create exec

/-- Modelled from the spec: `NamespaceConfig`; the `config` package is not
under src/; the spec's configuration collaborator supplies
`Namespace{name, devices}`. -/
structure NamespaceConfig where
  name : String
  devices : List NamespaceDeviceConfig
deriving DecidableEq, Repr

/-- Modelled from the spec: link modes; the `config` package is not under
src/; `Link{name, mode ∈ {direct-link, …}}` with bridge as the other variant. -/
inductive LinkMode where
  | directLink
  | bridge
deriving DecidableEq, Repr

/-- Modelled from the spec: `config.LinkConfig` (see `LinkMode`). -/
structure LinkConfig where
  name : String
  linkMode : LinkMode
deriving DecidableEq, Repr

/-- Modelled from the spec: top-level `config.Config`. -/
structure Config where
  links : List LinkConfig
  namespaces : List NamespaceConfig
deriving DecidableEq, Repr

/-- Go `InitNamespace` (veth.go:137-160): builds the unconfigured roster, issues
the namespace-creation command; on failure returns nil (`none`), on success
returns the namespace with active = true. -/
def InitNamespace (exec : Cmd → Bool) (c : NamespaceConfig) :
    Except Err Namespace × List Cmd :=
  let cmd := Cmd.ipNetnsAdd c.name
  if exec cmd then
    (.ok { name := c.name
           active := true
           devices := c.devices.map fun d => ⟨d, false⟩ }, [cmd])
  else (.error (.cmdFailed cmd), [cmd])

/-- Go `Namespace.Destroy` (veth.go:162-173): fails if already inactive, issues
the namespace-deletion command; note that it never clears `Active`. -/
def Namespace.destroy (exec : Cmd → Bool) (n : Namespace) :
    Option Err × Namespace × List Cmd :=
  if !n.active then (some (.alreadyInactive n.name), n, [])
  else
    let cmd := Cmd.ipNetnsDelete n.name
    if exec cmd then (none, n, [cmd])
    else (some (.cmdFailed cmd), n, [cmd])

/-- Go's `strings.HasPrefix(s, p)` over the characters of the two strings. -/
def hasPrefixGo (s p : String) : Bool := p.data.isPrefixOf s.data

/-- The roster scan of `Namespace.Attach` (veth.go:180-207): walk the
registered device configs in order; skip entries whose name is not a prefix
of the endpoint's name; at the first match, fail if already configured, fail
if the CIDR does not parse, then issue the move and assign commands and mark
the entry configured and the endpoint attached; stop after one match; no
match at all returns success with no change. -/
def attachScan (exec : Cmd → Bool) (parse : String → Bool) (nsName : String)
    (veth : Veth) :
    List RegisteredDeviceConfig →
      Option Err × List RegisteredDeviceConfig × Veth × List Cmd
  | [] => (none, [], veth, [])
  | c :: rest =>
    if !(hasPrefixGo veth.name c.device.name) then
      let (e, rest2, v2, cmds) := attachScan exec parse nsName veth rest
      (e, c :: rest2, v2, cmds)
    else if c.configured then
      (some (.alreadyConfigured c.device.name nsName), c :: rest, veth, [])
    else if !parse c.device.cidr then
      (some (.parseCIDRFailed c.device.cidr nsName c.device.name),
        c :: rest, veth, [])
    else
      let cmd1 := Cmd.ipLinkSetNs veth.name nsName
      if !exec cmd1 then
        (some (.setNsFailed c.device.name nsName), c :: rest, veth, [cmd1])
      else
        let cmd2 := Cmd.assignCidr veth.name nsName c.device.cidr
        if !exec cmd2 then
          (some (.assignCidrFailed c.device.cidr nsName veth.name),
            c :: rest, veth, [cmd1, cmd2])
        else
          (none, { c with configured := true } :: rest,
            { veth with attached := true }, [cmd1, cmd2])

/-- Go `Namespace.Attach` (veth.go:175-210): fails if the endpoint is already
attached, otherwise runs the roster scan. -/
def Namespace.attach (exec : Cmd → Bool) (parse : String → Bool)
    (n : Namespace) (veth : Veth) :
    Option Err × Namespace × Veth × List Cmd :=
  if veth.attached then (some (.deviceAlreadyAttached veth.name), n, veth, [])
  else
    let (e, devs, v2, cmds) := attachScan exec parse n.name veth n.devices
    (e, { n with devices := devs }, v2, cmds)

/-- Go `InitNamespaces` (veth.go:212-226): creates each namespace in order and
aborts on the first failure, returning nil — the namespaces already created
are discarded from the return value (their creation commands have still been
issued). -/
def InitNamespaces (exec : Cmd → Bool) :
    List NamespaceConfig → Except Err (List Namespace) × List Cmd
  | [] => (.ok [], [])
  | c :: rest =>
    match InitNamespace exec c with
    | (.error e, cmds) => (.error e, cmds)
    | (.ok ns, cmds) =>
      match InitNamespaces exec rest with
      | (.error e, cmds2) => (.error e, cmds ++ cmds2)
      | (.ok nss, cmds2) => (.ok (ns :: nss), cmds ++ cmds2)

/-- Go `CleanupNamespaces` (veth.go:273-281): destroys every namespace,
collecting all failures (the `multierr` aggregate is modelled as the list of
individual failures; the Go call returns nil exactly when this list is
empty). -/
def CleanupNamespaces (exec : Cmd → Bool) :
    List Namespace → List Err × List Namespace × List Cmd
  | [] => ([], [], [])
  | n :: rest =>
    let (e, n2, cmds) := n.destroy exec
    let (errs, rest2, cmds2) := CleanupNamespaces exec rest
    (match e with | some err => err :: errs | none => errs,
      n2 :: rest2, cmds ++ cmds2)

/-- Go `InitDirectLink` (part_000:17-36): rejects non-direct-link mode,
builds a VethPair named after the link; busy starts false.  On pair-creation
failure Go returns (nil, err); the issued command is still reported. -/
def InitDirectLink (exec : Cmd → Bool) (cfg : LinkConfig) :
    Option DirectLink × List Cmd :=
  if cfg.linkMode ≠ .directLink then (none, [])
  else
    match InitVethPair exec cfg.name with
    | (some _, _, cmds) => (none, cmds)
    | (none, pair, cmds) =>
      (some { pair := pair, name := cfg.name, busy := false }, cmds)

/-- Go `DirectLink.Destroy` (part_000:39-45): fails if not busy, else delegates
to the pair's destroy; never clears `busy`. -/
def DirectLink.destroy (exec : Cmd → Bool) (d : DirectLink) :
    Option Err × DirectLink × List Cmd :=
  if !d.busy then (some (.notBusy d.name), d, [])
  else
    let (e, p, cmds) := d.pair.destroy exec
    (e, { d with pair := p }, cmds)

/-- Go `DirectLink.CreateLink` (part_000:48-64): fails if already busy; attaches
the pair's left endpoint into the left namespace, then the right endpoint
into the right namespace; busy becomes true only when both attach calls
return success; a failed second attach leaves the first attach's mutations
in place (no rollback). -/
def DirectLink.createLink (exec : Cmd → Bool) (parse : String → Bool)
    (d : DirectLink) (l r : Namespace) :
    Option Err × DirectLink × Namespace × Namespace × List Cmd :=
  if d.busy then (some (.alreadyBusy d.name), d, l, r, [])
  else
    let (e1, l2, lv, cmds1) := l.attach exec parse d.pair.left
    let d1 := { d with pair := { d.pair with left := lv } }
    match e1 with
    | some err => (some err, d1, l2, r, cmds1)
    | none =>
      let (e2, r2, rv, cmds2) := r.attach exec parse d1.pair.right
      let d2 := { d1 with pair := { d1.pair with right := rv } }
      match e2 with
      | some err => (some err, d2, l2, r2, cmds1 ++ cmds2)
      | none => (none, { d2 with busy := true }, l2, r2, cmds1 ++ cmds2)

/-- Go `InitDirectLinks` (part_000:66-83): skips non-direct-link configs and
configs whose init fails; returns the successfully created subset. -/
def InitDirectLinks (exec : Cmd → Bool) :
    List LinkConfig → List DirectLink × List Cmd
  | [] => ([], [])
  | cfg :: rest =>
    if cfg.linkMode ≠ .directLink then InitDirectLinks exec rest
    else
      let (d?, cmds) := InitDirectLink exec cfg
      let (ds, cmds2) := InitDirectLinks exec rest
      (match d? with | some d => d :: ds | none => ds, cmds ++ cmds2)

/-- Go `CleanupDirectLinks` (part_000:85-93): destroys every link, collecting
all failures (`multierr` modelled as the list of failures). -/
def CleanupDirectLinks (exec : Cmd → Bool) :
    List DirectLink → List Err × List DirectLink × List Cmd
  | [] => ([], [], [])
  | d :: rest =>
    let (e, d2, cmds) := d.destroy exec
    let (errs, rest2, cmds2) := CleanupDirectLinks exec rest
    (match e with | some err => err :: errs | none => errs,
      d2 :: rest2, cmds ++ cmds2)

/-- Modelled from the spec: `InitBridges`; the bridge source file is not
under src/; per §4.3/§4.2 batch init skips non-bridge entries and entries
whose init fails, returning the successful subset; a fresh bridge starts not
busy.  Bridge creation commands are outside the spec's command list, so none
are recorded. -/
def InitBridges : List LinkConfig → List Bridge
  | [] => []
  | cfg :: rest =>
    if cfg.linkMode = .bridge then ⟨cfg.name, false⟩ :: InitBridges rest
    else InitBridges rest

/-- Modelled from the spec: `Bridge` destroy; Bridge honors the same busy
semantics as Direct Link (destroy fails when not busy). -/
def Bridge.destroy (b : Bridge) : Option Err × Bridge :=
  if !b.busy then (some (.notBusy b.name), b) else (none, b)

/-- Modelled from the spec: `CleanupBridges`; batch cleanup attempts every
bridge and aggregates failures (modelled as the list of failures). -/
def CleanupBridges : List Bridge → List Err × List Bridge
  | [] => ([], [])
  | b :: rest =>
    let (e, b2) := b.destroy
    let (errs, rest2) := CleanupBridges rest
    (match e with | some err => err :: errs | none => errs, b2 :: rest2)

/-- One insertion into the `netLinks` map (veth.go:229-238):
`netLinks[name] = append(netLinks[name], i)`, creating the entry when
absent.  The Go map is modelled as an association list in first-insertion
order (Go map iteration order is unspecified; this picks one order, and the
theorems about per-name behavior are stated per entry). -/
def netLinksInsert (m : List (String × List Nat)) (k : String) (i : Nat) :
    List (String × List Nat) :=
  match m with
  | [] => [(k, [i])]
  | (k', v) :: rest =>
    if k' = k then (k', v ++ [i]) :: rest else (k', v) :: netLinksInsert rest k i

/-- Builds `netLinks` from the devices of each namespace, scanning namespaces
and their rosters in order (veth.go:231-238). -/
def buildNetLinks (nss : List Namespace) : List (String × List Nat) :=
  ((nss.enum.map fun p => p.2.devices.map fun d => (d.device.name, p.1)).flatten).foldl
    (fun m e => netLinksInsert m e.1 e.2) []

/-- Total list indexing with a default, mirroring Go slice indexing at the
in-range indices the callers use (Go would panic out of range; the default is
never reached from `buildNetLinks`-produced indices). -/
def getGo {α : Type} (xs : List α) (i : Nat) (d : α) : α :=
  match xs, i with
  | [], _ => d
  | x :: _, 0 => x
  | _ :: rest, n + 1 => getGo rest n d

/-- The loop of `findValidLinkIndex` carrying the running index `i`. -/
def findValidLinkIndexGo (name : String) : List DirectLink → Nat → Int
  | [], _ => -1
  | link :: rest, i =>
    if name = link.name then (i : Int) else findValidLinkIndexGo name rest (i + 1)

/-- Go `findValidLinkIndex` (veth.go:241-248): index of the first link with the
given name, -1 when absent. -/
def findValidLinkIndex (links : List DirectLink) (name : String) : Int :=
  findValidLinkIndexGo name links 0

/-- Go `targetLink.CreateLink(namespaces[idxs[0]], namespaces[idxs[1]])`
(veth.go:264-265) with Go pointer semantics: the link lives in the `links`
slice and the two namespaces in the `nss` slice (they alias when `i = j`),
so the call is threaded through list indices. -/
def createLinkAt (exec : Cmd → Bool) (parse : String → Bool)
    (links : List DirectLink) (li : Nat) (nss : List Namespace) (i j : Nat) :
    Option Err × List DirectLink × List Namespace × List Cmd :=
  let d := getGo links li dummyLink
  if d.busy then (some (.alreadyBusy d.name), links, nss, [])
  else
    let l := getGo nss i dummyNs
    let (e1, l2, lv, cmds1) := l.attach exec parse d.pair.left
    let nss1 := nss.set i l2
    let d1 := { d with pair := { d.pair with left := lv } }
    match e1 with
    | some err => (some err, links.set li d1, nss1, cmds1)
    | none =>
      let r := getGo nss1 j dummyNs
      let (e2, r2, rv, cmds2) := r.attach exec parse d1.pair.right
      let nss2 := nss1.set j r2
      let d2 := { d1 with pair := { d1.pair with right := rv } }
      match e2 with
      | some err => (some err, links.set li d2, nss2, cmds1 ++ cmds2)
      | none => (none, links.set li { d2 with busy := true }, nss2, cmds1 ++ cmds2)

/-- The per-entry loop of `InitNamespacesLinks` (veth.go:250-268): degree 1
errors, degree > 2 errors, unknown link name errors, otherwise the link is
wired with the two discovered namespace indices and the pass continues; any
wiring failure aborts the pass.  The fourth component records each wire
invocation as `(link name, first index, second index)` in order. -/
def initLinksScan (exec : Cmd → Bool) (parse : String → Bool) :
    List (String × List Nat) → List Namespace → List DirectLink →
      Option Err × List Namespace × List DirectLink ×
        List (String × Nat × Nat) × List Cmd
  | [], nss, links => (none, nss, links, [], [])
  | (name, idxs) :: rest, nss, links =>
    if idxs.length = 1 then
      (some (.onlyOneLink name ((getGo nss (getGo idxs 0 0) dummyNs).name)),
        nss, links, [], [])
    else if idxs.length > 2 then
      (some (.overThreeLinks name), nss, links, [], [])
    else
      let li := findValidLinkIndex links name
      if li = -1 then (some (.linkNotFound name), nss, links, [], [])
      else
        let i := getGo idxs 0 0
        let j := getGo idxs 1 0
        let (e, links2, nss2, cmds) := createLinkAt exec parse links li.toNat nss i j
        match e with
        | some err =>
          (some (.createLinksFailed name err), nss2, links2, [(name, i, j)], cmds)
        | none =>
          let (e2, nss3, links3, tr, cmds2) := initLinksScan exec parse rest nss2 links2
          (e2, nss3, links3, (name, i, j) :: tr, cmds ++ cmds2)

/-- Go `InitNamespacesLinks` (veth.go:228-271): build the `netLinks` map and run
the wiring pass. -/
def InitNamespacesLinks (exec : Cmd → Bool) (parse : String → Bool)
    (nss : List Namespace) (links : List DirectLink) :
    Option Err × List Namespace × List DirectLink ×
      List (String × Nat × Nat) × List Cmd :=
  initLinksScan exec parse (buildNetLinks nss) nss links

/-- Go `State` (state.go:28-32). -/
structure State where
  directLinks : List DirectLink
  bridges : List Bridge
  namespaces : List Namespace
deriving DecidableEq, Repr

/-- Go `InitAll` (state.go:102-123): refuses a non-nil existing state; inits
direct links, then bridges, then namespaces; if `InitNamespaces` fails it
runs the three cleanups — passing the `ns` value that `InitNamespaces`
returned, which is nil on failure — and returns the error. -/
def InitAll (exec : Cmd → Bool) (cfg : Config) (currState : Option State) :
    Except Err State × List Cmd :=
  match currState with
  | some _ => (.error .mustDestroyExisting, [])
  | none =>
    let (dlinks, cmds1) := InitDirectLinks exec cfg.links
    let brs := InitBridges cfg.links
    match InitNamespaces exec cfg.namespaces with
    | (.error e, cmds2) =>
      -- network.CleanupNamespaces(ns) receives nil here, since
      -- InitNamespaces returned (nil, err).
      let (_, _, cmds3) := CleanupDirectLinks exec dlinks
      let _ := CleanupBridges brs
      let (_, _, cmds4) := CleanupNamespaces exec ([] : List Namespace)
      (.error e, cmds1 ++ cmds2 ++ cmds3 ++ cmds4)
    | (.ok ns, cmds2) =>
      (.ok { directLinks := dlinks, bridges := brs, namespaces := ns },
        cmds1 ++ cmds2)

/-- JSON documents, modelling the output of Go's `encoding/json` as a tree
(string escaping and whitespace of the textual form are not modelled). -/
inductive Json where
  | null
  | bool (b : Bool)
  | str (s : String)
  | arr (xs : List Json)
  | obj (fields : List (String × Json))

/-- Elementwise decoding of a JSON array's elements (the unmarshal of a Go
slice): fails if any element fails. -/
def decodeList {α : Type} (g : Json → Option α) : List Json → Option (List α)
  | [] => some []
  | j :: rest => do
    let x ← g j
    let xs ← decodeList g rest
    some (x :: xs)

/-- Marshal of `Veth` per its struct tags (veth.go:26-29). -/
def Veth.toJson (v : Veth) : Json :=
  .obj [("name", .str v.name), ("attached", .bool v.attached)]

/-- Unmarshal of `Veth` from the marshalled shape. -/
def Veth.fromJson : Json → Option Veth
  | .obj [("name", .str n), ("attached", .bool a)] => some ⟨n, a⟩
  | _ => none

/-- Marshal of `VethPair` per its struct tags (veth.go:31-36). -/
def VethPair.toJson (v : VethPair) : Json :=
  .obj [("name", .str v.name), ("veth_left", v.left.toJson),
        ("veth_right", v.right.toJson), ("is_active", .bool v.active)]

/-- Unmarshal of `VethPair` from the marshalled shape. -/
def VethPair.fromJson : Json → Option VethPair
  | .obj [("name", .str n), ("veth_left", l), ("veth_right", r),
          ("is_active", .bool a)] => do
    let lv ← Veth.fromJson l
    let rv ← Veth.fromJson r
    some ⟨n, lv, rv, a⟩
  | _ => none

/-- Marshal of `DirectLink` per its struct tags (part_000:11-15); the
embedded `VethPair` carries the tag `veth_pair` so it marshals as a nested
object. -/
def DirectLink.toJson (d : DirectLink) : Json :=
  .obj [("veth_pair", d.pair.toJson), ("name", .str d.name),
        ("busy", .bool d.busy)]

/-- Unmarshal of `DirectLink` from the marshalled shape. -/
def DirectLink.fromJson : Json → Option DirectLink
  | .obj [("veth_pair", p), ("name", .str n), ("busy", .bool b)] => do
    let pv ← VethPair.fromJson p
    some ⟨pv, n, b⟩
  | _ => none

/-- Marshal of `Bridge`.  Modelled from the spec (bridge source not under
src/): the persisted shape mirrors Direct Link's name/busy fields. -/
def Bridge.toJson (b : Bridge) : Json :=
  .obj [("name", .str b.name), ("busy", .bool b.busy)]

/-- Unmarshal of `Bridge` from the marshalled shape. -/
def Bridge.fromJson : Json → Option Bridge
  | .obj [("name", .str n), ("busy", .bool b)] => some ⟨n, b⟩
  | _ => none

/-- Marshal of `config.NamespaceDeviceConfig`.  Modelled from the spec (the
`config` package is not under src/): the device config persists its
name-prefix and subnet fields. -/
def NamespaceDeviceConfig.toJson (c : NamespaceDeviceConfig) : Json :=
  .obj [("name", .str c.name), ("cidr", .str c.cidr)]

/-- Unmarshal of `config.NamespaceDeviceConfig`. -/
def NamespaceDeviceConfig.fromJson : Json → Option NamespaceDeviceConfig
  | .obj [("name", .str n), ("cidr", .str c)] => some ⟨n, c⟩
  | _ => none

/-- Marshal of `RegisteredDeviceConfig` per its struct tags
(veth.go:126-129): the embedded device config carries the tag
`device_config`. -/
def RegisteredDeviceConfig.toJson (c : RegisteredDeviceConfig) : Json :=
  .obj [("device_config", c.device.toJson), ("configured", .bool c.configured)]

/-- Unmarshal of `RegisteredDeviceConfig`. -/
def RegisteredDeviceConfig.fromJson : Json → Option RegisteredDeviceConfig
  | .obj [("device_config", d), ("configured", .bool c)] => do
    let dv ← NamespaceDeviceConfig.fromJson d
    some ⟨dv, c⟩
  | _ => none

/-- Marshal of `Namespace` per its struct tags (veth.go:131-135). -/
def Namespace.toJson (n : Namespace) : Json :=
  .obj [("name", .str n.name), ("is_active", .bool n.active),
        ("registered_device_config", .arr (n.devices.map RegisteredDeviceConfig.toJson))]

/-- Unmarshal of `Namespace`. -/
def Namespace.fromJson : Json → Option Namespace
  | .obj [("name", .str nm), ("is_active", .bool a),
          ("registered_device_config", .arr ds)] => do
    let dv ← decodeList RegisteredDeviceConfig.fromJson ds
    some ⟨nm, a, dv⟩
  | _ => none

/-- Marshal of `State` per its struct tags (state.go:28-32); this is
`json.Marshal` of `SaveState` (state.go:56-74) restricted to the document
produced. -/
def State.toJson (s : State) : Json :=
  .obj [("direct_links", .arr (s.directLinks.map DirectLink.toJson)),
        ("bridges", .arr (s.bridges.map Bridge.toJson)),
        ("namespaces", .arr (s.namespaces.map Namespace.toJson))]

/-- Unmarshal of `State`; this is `json.Unmarshal` of `LoadStateFromFile`
(state.go:48-51) restricted to documents of the marshalled shape. -/
def State.fromJson : Json → Option State
  | .obj [("direct_links", .arr dl), ("bridges", .arr br),
          ("namespaces", .arr ns)] => do
    let d ← decodeList DirectLink.fromJson dl
    let b ← decodeList Bridge.fromJson br
    let n ← decodeList Namespace.fromJson ns
    some ⟨d, b, n⟩
  | _ => none

/-- The persisted state file, modelled as the optional JSON document at the
fixed per-user path (`$HOME/.ayame/state.json`); `none` means the file does
not exist. -/
def StateFile := Option Json

/-- Go `SaveState` (state.go:56-74): serializes the aggregate and writes it to
the fixed path (directory creation is invisible at this level). -/
def SaveState (s : State) : StateFile := some s.toJson

/-- Go `LoadStateFromFile` (state.go:38-54): a missing file yields the
distinguished "no saved state" error; an unparseable document yields a
generic unmarshal error; otherwise the decoded state. -/
def LoadStateFromFile (file : StateFile) : Except Err State :=
  match file with
  | none => .error .noSavedState
  | some j =>
    match State.fromJson j with
    | none => .error .unmarshalFailed
    | some s => .ok s

/-! ## Concrete fixtures used by witnesses and counterexamples -/

/-- Oracle under which every issued command succeeds. -/
def execAll : Cmd → Bool := fun _ => true

/-- Oracle under which every CIDR string parses. -/
def parseAll : String → Bool := fun _ => true

/-- A namespace whose roster references `link0` with a well-formed subnet. -/
def nsWithLink0 : Namespace := ⟨"ns-a", true, [⟨⟨"link0", "10.0.0.1/24"⟩, false⟩]⟩

/-- A second namespace whose roster also references `link0`. -/
def nsWithLink0' : Namespace := ⟨"ns-b", true, [⟨⟨"link0", "10.0.0.2/24"⟩, false⟩]⟩

/-- A namespace with an empty device roster: every attach is a silent no-op. -/
def nsEmptyA : Namespace := ⟨"ns-a", true, []⟩

/-- Another namespace with an empty device roster. -/
def nsEmptyB : Namespace := ⟨"ns-b", true, []⟩

/-- A freshly initialized `link0` direct link (active pair, unattached
endpoints, not busy), as produced by `InitDirectLink` under `execAll`. -/
def dFresh : DirectLink :=
  ⟨⟨"link0", ⟨"link0-left", false⟩, ⟨"link0-right", false⟩, true⟩, "link0", false⟩

/-! ## Helper lemmas about the attach roster scan -/

/-- A roster scan with no matching entry returns success and changes nothing. -/
theorem attachScan_no_match (exec : Cmd → Bool) (parse : String → Bool)
    (nsName : String) (veth : Veth) (ds : List RegisteredDeviceConfig)
    (h : ∀ c ∈ ds, hasPrefixGo veth.name c.device.name = false) :
    attachScan exec parse nsName veth ds = (none, ds, veth, []) := by
  induction ds with
  | nil => rfl
  | cons c rest ih =>
    have hc := h c (List.mem_cons_self _ _)
    have hr := ih fun d hd => h d (List.mem_cons_of_mem _ hd)
    simp [attachScan, hc, hr]

/-- If the first matching roster entry has an unparseable subnet, the scan
errors and changes nothing. -/
theorem attachScan_first_match_bad_cidr (exec : Cmd → Bool)
    (parse : String → Bool) (nsName : String) (veth : Veth)
    (pre post : List RegisteredDeviceConfig) (c : RegisteredDeviceConfig)
    (hpre : ∀ d ∈ pre, hasPrefixGo veth.name d.device.name = false)
    (hc : hasPrefixGo veth.name c.device.name = true)
    (hparse : parse c.device.cidr = false) :
    ∃ err, attachScan exec parse nsName veth (pre ++ c :: post) =
      (some err, pre ++ c :: post, veth, []) := by
  induction pre with
  | nil =>
    by_cases hcfg : c.configured
    · exact ⟨Err.alreadyConfigured c.device.name nsName,
        by simp [attachScan, hc, hcfg]⟩
    · exact ⟨Err.parseCIDRFailed c.device.cidr nsName c.device.name,
        by simp [attachScan, hc, hcfg, hparse]⟩
  | cons d rest ih =>
    obtain ⟨err, heq⟩ := ih fun x hx => hpre x (List.mem_cons_of_mem _ hx)
    exact ⟨err, by simp [attachScan, hpre d (List.mem_cons_self _ _), heq]⟩

/-- C7: for every namespace and unattached endpoint matching no roster entry,
`Attach` returns success while mutating nothing — every roster entry's
configured flag and the endpoint's attached flag are unchanged and no command
is issued. -/
theorem C7_attach_no_match_is_silent_noop (exec : Cmd → Bool)
    (parse : String → Bool) (n : Namespace) (e : Veth)
    (hA : e.attached = false)
    (hNo : ∀ c ∈ n.devices, hasPrefixGo e.name c.device.name = false) :
    n.attach exec parse e = (none, n, e, []) := by
  simp [Namespace.attach, hA, attachScan_no_match exec parse n.name e n.devices hNo]

/-- Witness for C7 at a concrete namespace and endpoint. -/
theorem C7_witness :
    Namespace.attach execAll parseAll nsWithLink0 ⟨"other-left", false⟩ =
      (none, nsWithLink0, ⟨"other-left", false⟩, []) :=
  C7_attach_no_match_is_silent_noop execAll parseAll nsWithLink0
    ⟨"other-left", false⟩ rfl (by decide)

/-- C6: for every namespace and unattached endpoint whose first matching
roster entry has an unparseable subnet, `Attach` returns an error and changes
nothing — no configured flag is set, the endpoint stays unattached, and no
command is issued. -/
theorem C6_attach_bad_cidr_errors_without_change (exec : Cmd → Bool)
    (parse : String → Bool) (n : Namespace) (e : Veth)
    (pre post : List RegisteredDeviceConfig) (c : RegisteredDeviceConfig)
    (hA : e.attached = false)
    (hdev : n.devices = pre ++ c :: post)
    (hpre : ∀ d ∈ pre, hasPrefixGo e.name d.device.name = false)
    (hc : hasPrefixGo e.name c.device.name = true)
    (hparse : parse c.device.cidr = false) :
    ∃ err, n.attach exec parse e = (some err, n, e, []) := by
  obtain ⟨err, heq⟩ :=
    attachScan_first_match_bad_cidr exec parse n.name e pre post c hpre hc hparse
  refine ⟨err, ?_⟩
  simp [Namespace.attach, hA, hdev, heq]
  rw [← hdev]

/-- A namespace whose single `link0` roster entry carries a malformed subnet. -/
def nsBadCidr : Namespace := ⟨"ns-bad", true, [⟨⟨"link0", "not-a-cidr"⟩, false⟩]⟩

/-- Oracle under which no CIDR string parses. -/
def parseNone : String → Bool := fun _ => false

/-- Witness for C6 at a concrete namespace, endpoint and parse oracle. -/
theorem C6_witness :
    ∃ err, Namespace.attach execAll parseNone nsBadCidr ⟨"link0-left", false⟩ =
      (some err, nsBadCidr, ⟨"link0-left", false⟩, []) :=
  C6_attach_bad_cidr_errors_without_change execAll parseNone nsBadCidr
    ⟨"link0-left", false⟩ [] [] ⟨⟨"link0", "not-a-cidr"⟩, false⟩
    rfl rfl (by decide) (by decide) rfl

/-- C9: a successful `Namespace.Destroy` leaves the namespace value unchanged
(in particular `active` stays true), so a second `Destroy` on the same object
passes the already-inactive check and re-issues the deletion command. -/
theorem C9_namespace_destroy_keeps_active (exec : Cmd → Bool) (n : Namespace)
    (hA : n.active = true) (hE : exec (Cmd.ipNetnsDelete n.name) = true) :
    n.destroy exec = (none, n, [Cmd.ipNetnsDelete n.name]) ∧
    (n.destroy exec).2.1.destroy exec = (none, n, [Cmd.ipNetnsDelete n.name]) := by
  have h1 : n.destroy exec = (none, n, [Cmd.ipNetnsDelete n.name]) := by
    simp [Namespace.destroy, hA, hE]
  exact ⟨h1, by rw [h1]; exact h1⟩

/-- Witness for C9 at a concrete namespace. -/
theorem C9_witness :
    Namespace.destroy execAll nsEmptyA = (none, nsEmptyA, [Cmd.ipNetnsDelete "ns-a"]) ∧
    (Namespace.destroy execAll nsEmptyA).2.1.destroy execAll =
      (none, nsEmptyA, [Cmd.ipNetnsDelete "ns-a"]) :=
  C9_namespace_destroy_keeps_active execAll nsEmptyA rfl rfl

/-- Destroy of a direct link never changes the `busy` field. -/
theorem DirectLink.destroy_busy (exec : Cmd → Bool) (d : DirectLink) :
    (d.destroy exec).2.1.busy = d.busy := by
  by_cases hb : d.busy
  · rcases hpd : d.pair.destroy exec with ⟨pe, pp, pcs⟩
    simp [DirectLink.destroy, hb, hpd]
  · simp [DirectLink.destroy, hb]

/-- C10: `DirectLink.Destroy` never clears `busy` — a successful destroy
returns a link whose `busy` is still true, so repeated destroys keep passing
the busy precondition; and when both endpoints of the active pair are
attached, destroy is a success no-op, so repeated destroys keep returning
success. -/
theorem C10_directlink_destroy_keeps_busy (exec : Cmd → Bool) (d : DirectLink) :
    (∀ e d2 cs, d.destroy exec = (e, d2, cs) → e = none →
      d2.busy = true ∧ d.busy = true) ∧
    (d.busy = true → d.pair.active = true →
      d.pair.left.attached = true → d.pair.right.attached = true →
      d.destroy exec = (none, d, []) ∧
      (d.destroy exec).2.1.destroy exec = (none, d, [])) := by
  constructor
  · intro e d2 cs heq hnone
    subst hnone
    by_cases hb : d.busy
    · refine ⟨?_, hb⟩
      have h2 : d2 = (d.destroy exec).2.1 := by rw [heq]
      rw [h2, DirectLink.destroy_busy]
      exact hb
    · simp [DirectLink.destroy, hb] at heq
  · intro hb hpa hl hr
    obtain ⟨p, nm, b⟩ := d
    have hb' : b = true := hb
    subst hb'
    have h1 : DirectLink.destroy exec ⟨p, nm, true⟩ = (none, ⟨p, nm, true⟩, []) := by
      have hpa' : p.active = true := hpa
      have hl' : p.left.attached = true := hl
      have hr' : p.right.attached = true := hr
      simp [DirectLink.destroy, VethPair.destroy, hpa', hl', hr']
    exact ⟨h1, by rw [h1]; exact h1⟩

/-- A busy direct link whose pair endpoints are both attached. -/
def dBusyBothAttached : DirectLink :=
  ⟨⟨"link0", ⟨"link0-left", true⟩, ⟨"link0-right", true⟩, true⟩, "link0", true⟩

/-- Witness for C10 at a concrete busy, fully attached link. -/
theorem C10_witness :
    dBusyBothAttached.destroy execAll = (none, dBusyBothAttached, []) ∧
    (dBusyBothAttached.destroy execAll).2.1.destroy execAll =
      (none, dBusyBothAttached, []) :=
  (C10_directlink_destroy_keeps_busy execAll dBusyBothAttached).2 rfl rfl rfl rfl

/-- C5: for every active veth pair, destroy with both endpoints unattached
deletes the left endpoint only (left tried before right) and clears `active`;
destroy with both endpoints attached issues no deletion, returns success and
leaves `active` true; and `active` is cleared only when an actual deletion
occurred. -/
theorem C5_vethpair_destroy_behavior (exec : Cmd → Bool) (v : VethPair)
    (hA : v.active = true) :
    (v.left.attached = false → v.right.attached = false →
      exec (Cmd.ipLinkDelete v.left.name) = true →
      v.destroy exec = (none, { v with active := false },
        [Cmd.ipLinkDelete v.left.name])) ∧
    (v.left.attached = true → v.right.attached = true →
      v.destroy exec = (none, v, [])) ∧
    (∀ e v2 cs, v.destroy exec = (e, v2, cs) → v2.active = false →
      e = none ∧
        ((cs = [Cmd.ipLinkDelete v.left.name] ∧
            exec (Cmd.ipLinkDelete v.left.name) = true) ∨
          (cs = [Cmd.ipLinkDelete v.right.name] ∧
            exec (Cmd.ipLinkDelete v.right.name) = true))) := by
  refine ⟨?_, ?_, ?_⟩
  · intro hl _ hE
    simp [VethPair.destroy, hA, hl, hE]
  · intro hl hr
    simp [VethPair.destroy, hA, hl, hr]
  · intro e v2 cs heq hact
    by_cases hl : v.left.attached
    · by_cases hr : v.right.attached
      · simp [VethPair.destroy, hA, hl, hr] at heq
        rw [← heq.2.1] at hact
        rw [hA] at hact
        exact absurd hact (by simp)
      · by_cases hE : exec (Cmd.ipLinkDelete v.right.name)
        · simp [VethPair.destroy, hA, hl, hr, hE] at heq
          exact ⟨heq.1.symm, Or.inr ⟨heq.2.2.symm, hE⟩⟩
        · simp [VethPair.destroy, hA, hl, hr, hE] at heq
          rw [← heq.2.1] at hact
          rw [hA] at hact
          exact absurd hact (by simp)
    · by_cases hE : exec (Cmd.ipLinkDelete v.left.name)
      · simp [VethPair.destroy, hA, hl, hE] at heq
        exact ⟨heq.1.symm, Or.inl ⟨heq.2.2.symm, hE⟩⟩
      · simp [VethPair.destroy, hA, hl, hE] at heq
        rw [← heq.2.1] at hact
        rw [hA] at hact
        exact absurd hact (by simp)

/-- Witness for C5 at a concrete active pair with unattached endpoints. -/
theorem C5_witness :
    VethPair.destroy execAll dFresh.pair =
      (none, { dFresh.pair with active := false }, [Cmd.ipLinkDelete "link0-left"]) :=
  (C5_vethpair_destroy_behavior execAll dFresh.pair rfl).1 rfl rfl rfl

/-- C2 counterexample: wiring a fresh link into two namespaces whose rosters
match neither endpoint returns success and sets `busy` to true, yet neither
endpoint was attached — refuting "busy implies both endpoints attached". -/
theorem C2_counterexample :
    (dFresh.createLink execAll parseAll nsEmptyA nsEmptyB).1 = none ∧
    (dFresh.createLink execAll parseAll nsEmptyA nsEmptyB).2.1.busy = true ∧
    (dFresh.createLink execAll parseAll nsEmptyA nsEmptyB).2.1.pair.left.attached = false ∧
    (dFresh.createLink execAll parseAll nsEmptyA nsEmptyB).2.1.pair.right.attached = false := by
  decide

/-- C2 (amended): for a non-busy direct link, `CreateLink` ends with
`busy = true` exactly when both endpoint-attach calls return success — attach
returning success does not imply the endpoint was actually attached, since a
no-matching-roster-entry attach succeeds as a silent no-op. -/
theorem C2_busy_iff_attaches_return_success (exec : Cmd → Bool)
    (parse : String → Bool) (d : DirectLink) (l r : Namespace)
    (h : d.busy = false) :
    ((d.createLink exec parse l r).1 = none ↔
      (d.createLink exec parse l r).2.1.busy = true) := by
  rcases h1 : l.attach exec parse d.pair.left with ⟨e1, l2, lv, cmds1⟩
  cases e1 with
  | some err => simp [DirectLink.createLink, h, h1]
  | none =>
    rcases h2 : r.attach exec parse d.pair.right with ⟨e2, r2, rv, cmds2⟩
    cases e2 with
    | some err => simp [DirectLink.createLink, h, h1, h2]
    | none => simp [DirectLink.createLink, h, h1, h2]

/-- Witness for C2's amended theorem: with matching rosters the run succeeds
and `busy` flips to true. -/
theorem C2_witness :
    (dFresh.createLink execAll parseAll nsWithLink0 nsWithLink0').2.1.busy = true :=
  (C2_busy_iff_attaches_return_success execAll parseAll dFresh
    nsWithLink0 nsWithLink0' rfl).mp (by decide)

/-- The result of wiring a fresh `link0` into two empty-roster namespaces:
busy is true but both endpoints are still unattached. -/
def dHalf : DirectLink := (dFresh.createLink execAll parseAll nsEmptyA nsEmptyB).2.1

/-- The link after one successful destroy of `dHalf`: the pair is inactive
but `busy` is still true. -/
def dAfterDestroy : DirectLink := (dHalf.destroy execAll).2.1

/-- C4 counterexample: a reachable direct link (fresh link, wired via
silent-no-op attaches, then destroyed once) is busy immediately before a
second destroy, every link-deletion command succeeds, yet that destroy
returns an error — refuting "destroy succeeds iff busy was true". -/
theorem C4_counterexample :
    dAfterDestroy.busy = true ∧
    execAll (Cmd.ipLinkDelete dAfterDestroy.pair.left.name) = true ∧
    execAll (Cmd.ipLinkDelete dAfterDestroy.pair.right.name) = true ∧
    (dAfterDestroy.destroy execAll).1.isSome = true := by decide

/-- C4 (amended): assuming the external link-deletion command succeeds when
issued, `DirectLink.Destroy` succeeds iff both `busy` and the underlying
pair's `active` were true immediately before the call; when `busy` is false
it returns the "is not busy" error without issuing any command. -/
theorem C4_destroy_succeeds_iff_busy_and_active (exec : Cmd → Bool)
    (d : DirectLink) (hexec : ∀ nm, exec (Cmd.ipLinkDelete nm) = true) :
    ((d.destroy exec).1 = none ↔ d.busy = true ∧ d.pair.active = true) ∧
    (d.busy = false → d.destroy exec = (some (Err.notBusy d.name), d, [])) := by
  constructor
  · by_cases hb : d.busy
    · by_cases ha : d.pair.active
      · by_cases hl : d.pair.left.attached
        · by_cases hr : d.pair.right.attached
          · simp [DirectLink.destroy, VethPair.destroy, hb, ha, hl, hr]
          · simp [DirectLink.destroy, VethPair.destroy, hb, ha, hl, hr, hexec]
        · simp [DirectLink.destroy, VethPair.destroy, hb, ha, hl, hexec]
      · simp [DirectLink.destroy, VethPair.destroy, hb, ha]
    · simp [DirectLink.destroy, hb]
  · intro hb
    simp [DirectLink.destroy, hb]

/-- Witness for C4's amended theorem at a busy link with an active pair. -/
theorem C4_witness : (dBusyBothAttached.destroy execAll).1 = none :=
  (C4_destroy_succeeds_iff_busy_and_active execAll dBusyBothAttached
    (fun _ => rfl)).1.mpr (by decide)

/-- A configuration with no links and two namespaces. -/
def cfgTwoNs : Config := ⟨[], [⟨"ns-a", []⟩, ⟨"ns-b", []⟩]⟩

/-- An oracle under which creating namespace ns-b fails while every other
command succeeds. -/
def execFailNsB : Cmd → Bool := fun c => !(c == Cmd.ipNetnsAdd "ns-b")

/-- Decidable equality for results of `InitAll`. -/
instance : DecidableEq (Except Err State) := fun a b =>
  match a, b with
  | .ok x, .ok y =>
    if h : x = y then .isTrue (h ▸ rfl)
    else .isFalse fun hc => h (Except.ok.inj hc)
  | .error x, .error y =>
    if h : x = y then .isTrue (h ▸ rfl)
    else .isFalse fun hc => h (Except.error.inj hc)
  | .ok _, .error _ => .isFalse fun hc => Except.noConfusion hc
  | .error _, .ok _ => .isFalse fun hc => Except.noConfusion hc

/-- C1: evidence that the rollback in `InitAll` never destroys the
namespaces already created before the failure.  With two namespaces where
only the second creation command fails, `InitAll` returns the error, the
issued commands show ns-a was created (its creation command was issued and
succeeded), and no namespace-deletion command for ns-a is ever issued —
because `InitNamespaces` returns nil on failure, so the rollback's
`CleanupNamespaces` receives an empty list. -/
theorem C1_initall_rollback_skips_created_namespaces :
    (InitAll execFailNsB cfgTwoNs none).1 =
      Except.error (Err.cmdFailed (Cmd.ipNetnsAdd "ns-b")) ∧
    (InitAll execFailNsB cfgTwoNs none).2 =
      [Cmd.ipNetnsAdd "ns-a", Cmd.ipNetnsAdd "ns-b"] ∧
    execFailNsB (Cmd.ipNetnsAdd "ns-a") = true ∧
    Cmd.ipNetnsDelete "ns-a" ∉ (InitAll execFailNsB cfgTwoNs none).2 := by
  decide

/-- Round trip for `Veth` JSON. -/
theorem veth_fromJson_toJson (v : Veth) : Veth.fromJson v.toJson = some v := rfl

/-- Round trip for `VethPair` JSON. -/
theorem vethPair_fromJson_toJson (p : VethPair) :
    VethPair.fromJson p.toJson = some p := rfl

/-- Round trip for `DirectLink` JSON. -/
theorem dlink_fromJson_toJson (d : DirectLink) :
    DirectLink.fromJson d.toJson = some d := rfl

/-- Round trip for `Bridge` JSON. -/
theorem bridge_fromJson_toJson (b : Bridge) :
    Bridge.fromJson b.toJson = some b := rfl

/-- Round trip for `RegisteredDeviceConfig` JSON. -/
theorem rdc_fromJson_toJson (c : RegisteredDeviceConfig) :
    RegisteredDeviceConfig.fromJson c.toJson = some c := rfl

/-- Mapping a marshal over a list and then unmarshalling each element
reproduces the list. -/
theorem decodeList_map {α : Type} (f : α → Json) (g : Json → Option α)
    (h : ∀ x, g (f x) = some x) (xs : List α) :
    decodeList g (xs.map f) = some xs := by
  induction xs with
  | nil => rfl
  | cons x rest ih => simp [decodeList, h, ih]

/-- Round trip for `Namespace` JSON. -/
theorem namespace_fromJson_toJson (n : Namespace) :
    Namespace.fromJson n.toJson = some n := by
  simp [Namespace.toJson, Namespace.fromJson,
    decodeList_map _ _ rdc_fromJson_toJson]

/-- Round trip for `State` JSON: marshal then unmarshal is the identity. -/
theorem state_fromJson_toJson (s : State) : State.fromJson s.toJson = some s := by
  simp [State.toJson, State.fromJson,
    decodeList_map _ _ dlink_fromJson_toJson,
    decodeList_map _ _ bridge_fromJson_toJson,
    decodeList_map _ _ namespace_fromJson_toJson]

/-- C8: saving any state and loading it back reproduces the direct links,
bridges and namespaces exactly (JSON marshal then unmarshal is the identity
on the persisted fields), and loading with no saved file yields the
distinguished "no saved state" error, which differs from the generic
unmarshal-failure read error. -/
theorem C8_state_save_load_roundtrip (s : State) :
    LoadStateFromFile (SaveState s) = Except.ok s ∧
    LoadStateFromFile (none : StateFile) = Except.error Err.noSavedState ∧
    Err.noSavedState ≠ Err.unmarshalFailed := by
  refine ⟨?_, rfl, by decide⟩
  simp [LoadStateFromFile, SaveState, state_fromJson_toJson]

/-! ## Topology-builder lemmas (C3) -/

/-- Setting position `li` of the name list to the name already there is the
identity. -/
theorem set_getGo_map (links : List DirectLink) (li : Nat) :
    (links.map (fun l => l.name)).set li (getGo links li dummyLink).name =
      links.map (fun l => l.name) := by
  induction links generalizing li with
  | nil => simp
  | cons a rest ih =>
    cases li with
    | zero => simp [getGo]
    | succ n => simp [getGo, ih n]

/-- `createLinkAt` never changes any link's name. -/
theorem createLinkAt_names (exec : Cmd → Bool) (parse : String → Bool)
    (links : List DirectLink) (li : Nat) (nss : List Namespace) (i j : Nat) :
    ((createLinkAt exec parse links li nss i j).2.1).map (fun l => l.name) =
      links.map (fun l => l.name) := by
  by_cases hb : (getGo links li dummyLink).busy
  · simp [createLinkAt, hb]
  · rcases h1 : (getGo nss i dummyNs).attach exec parse (getGo links li dummyLink).pair.left
      with ⟨e1, l2, lv, cmds1⟩
    cases e1 with
    | some err =>
      simp [createLinkAt, hb, h1]
      exact set_getGo_map links li
    | none =>
      rcases h2 : (getGo (nss.set i l2) j dummyNs).attach exec parse
          (getGo links li dummyLink).pair.right with ⟨e2, r2, rv, cmds2⟩
      cases e2 with
      | some err =>
        simp [createLinkAt, hb, h1, h2]
        exact set_getGo_map links li
      | none =>
        simp [createLinkAt, hb, h1, h2]
        exact set_getGo_map links li

/-- The link-lookup loop depends only on the list of link names. -/
theorem findValidLinkIndexGo_congr (name : String) (links : List DirectLink) :
    ∀ (links2 : List DirectLink) (i : Nat),
    links.map (fun l => l.name) = links2.map (fun l => l.name) →
    findValidLinkIndexGo name links i = findValidLinkIndexGo name links2 i := by
  induction links with
  | nil =>
    intro links2 i h
    cases links2 with
    | nil => rfl
    | cons b bs => simp at h
  | cons a as ih =>
    intro links2 i h
    cases links2 with
    | nil => simp at h
    | cons b bs =>
      simp only [List.map_cons, List.cons.injEq] at h
      simp only [findValidLinkIndexGo, h.1, ih bs (i + 1) h.2]

/-- `findValidLinkIndex` depends only on the list of link names. -/
theorem findValidLinkIndex_congr (name : String) (links links2 : List DirectLink)
    (h : links.map (fun l => l.name) = links2.map (fun l => l.name)) :
    findValidLinkIndex links name = findValidLinkIndex links2 name :=
  findValidLinkIndexGo_congr name links links2 0 h

/-- If any entry of the pending map has degree 1, degree above 2, or degree 2
with an unknown link name, the wiring pass returns an error. -/
theorem initLinksScan_error_of_bad (exec : Cmd → Bool) (parse : String → Bool)
    (m : List (String × List Nat)) (nss : List Namespace)
    (links : List DirectLink) (name : String) (idxs : List Nat)
    (hmem : (name, idxs) ∈ m)
    (hbad : idxs.length = 1 ∨ 2 < idxs.length ∨
      (idxs.length = 2 ∧ findValidLinkIndex links name = -1)) :
    (initLinksScan exec parse m nss links).1.isSome = true := by
  induction m generalizing nss links with
  | nil => simp at hmem
  | cons hd rest ih =>
    rcases hd with ⟨hname, hidxs⟩
    by_cases h1 : hidxs.length = 1
    · simp [initLinksScan, h1]
    · by_cases h2 : hidxs.length > 2
      · simp [initLinksScan, h1, h2]
      · by_cases h3 : findValidLinkIndex links hname = -1
        · simp [initLinksScan, h1, h2, h3]
        · rcases List.mem_cons.mp hmem with heq | hmem2
          · injection heq with hn hi
            subst hn
            subst hi
            rcases hbad with hb | hb | ⟨_, hb⟩
            · exact absurd hb h1
            · exact absurd hb h2
            · exact absurd hb h3
          · rcases hca : createLinkAt exec parse links
                ((findValidLinkIndex links hname).toNat) nss
                (getGo hidxs 0 0) (getGo hidxs 1 0) with ⟨e, links2, nss2, cmds⟩
            cases e with
            | some err => simp [initLinksScan, h1, h2, h3, hca]
            | none =>
              have hnames : links2.map (fun l => l.name) =
                  links.map (fun l => l.name) := by
                have := createLinkAt_names exec parse links
                  ((findValidLinkIndex links hname).toNat) nss
                  (getGo hidxs 0 0) (getGo hidxs 1 0)
                rw [hca] at this
                exact this
              have hbad2 : idxs.length = 1 ∨ 2 < idxs.length ∨
                  (idxs.length = 2 ∧ findValidLinkIndex links2 name = -1) := by
                rcases hbad with hb | hb | ⟨hb, hb2⟩
                · exact Or.inl hb
                · exact Or.inr (Or.inl hb)
                · exact Or.inr (Or.inr ⟨hb, by
                    rw [findValidLinkIndex_congr name links2 links hnames]
                    exact hb2⟩)
              rcases hrec : initLinksScan exec parse rest nss2 links2
                with ⟨e2, nss3, links3, tr, cmds2⟩
              have hgoal := ih nss2 links2 hmem2 hbad2
              rw [hrec] at hgoal
              simp only [Option.isSome] at hgoal
              simp [initLinksScan, h1, h2, h3, hca, hrec]
              cases e2 with
              | some err2 => simp
              | none => simp at hgoal

/-- On a successful wiring pass, every degree-2 entry of the pending map has
its wire invocation — with the two discovered namespace indices in order —
recorded in the invocation trace. -/
theorem initLinksScan_success_wires (exec : Cmd → Bool) (parse : String → Bool)
    (m : List (String × List Nat)) (nss : List Namespace)
    (links : List DirectLink)
    (hok : (initLinksScan exec parse m nss links).1 = none)
    (name : String) (i j : Nat) (hmem : (name, [i, j]) ∈ m) :
    (name, i, j) ∈ (initLinksScan exec parse m nss links).2.2.2.1 := by
  induction m generalizing nss links with
  | nil => simp at hmem
  | cons hd rest ih =>
    rcases hd with ⟨hname, hidxs⟩
    by_cases h1 : hidxs.length = 1
    · simp [initLinksScan, h1] at hok
    · by_cases h2 : hidxs.length > 2
      · simp [initLinksScan, h1, h2] at hok
      · by_cases h3 : findValidLinkIndex links hname = -1
        · simp [initLinksScan, h1, h2, h3] at hok
        · rcases hca : createLinkAt exec parse links
              ((findValidLinkIndex links hname).toNat) nss
              (getGo hidxs 0 0) (getGo hidxs 1 0) with ⟨e, links2, nss2, cmds⟩
          cases e with
          | some err => simp [initLinksScan, h1, h2, h3, hca] at hok
          | none =>
            rcases hrec : initLinksScan exec parse rest nss2 links2
              with ⟨e2, nss3, links3, tr, cmds2⟩
            rcases List.mem_cons.mp hmem with heq | hmem2
            · injection heq with hn hi
              subst hn
              subst hi
              simp only [getGo] at hca
              simp [initLinksScan, h1, h2, h3, hca, hrec, getGo]
            · have hok2 : e2 = none := by
                simp [initLinksScan, h1, h2, h3, hca, hrec] at hok
                exact hok
              have hmemtr := ih nss2 links2 (by rw [hrec]; exact hok2) hmem2
              rw [hrec] at hmemtr
              simp only [] at hmemtr
              simp [initLinksScan, h1, h2, h3, hca, hrec]
              exact Or.inr hmemtr

/-- C3: for every mapping from link names to the namespace indices
referencing them, the Topology Builder returns an error if any link name has
degree 1, degree at least 3, or degree 2 with no registered Direct Link of
that name; and on a successful pass every link name of degree exactly 2 had
the Direct Link's wire operation invoked with the two referencing namespaces
in the order they were discovered while scanning namespaces and their device
rosters in order. -/
theorem C3_topology_builder_degree_and_wiring (exec : Cmd → Bool)
    (parse : String → Bool) (nss : List Namespace) (links : List DirectLink) :
    (∀ name idxs, (name, idxs) ∈ buildNetLinks nss →
      (idxs.length = 1 ∨ 2 < idxs.length ∨
        (idxs.length = 2 ∧ findValidLinkIndex links name = -1)) →
      (InitNamespacesLinks exec parse nss links).1.isSome = true) ∧
    ((InitNamespacesLinks exec parse nss links).1 = none →
      ∀ name i j, (name, [i, j]) ∈ buildNetLinks nss →
        (name, i, j) ∈ (InitNamespacesLinks exec parse nss links).2.2.2.1) := by
  constructor
  · intro name idxs hmem hbad
    exact initLinksScan_error_of_bad exec parse (buildNetLinks nss) nss links
      name idxs hmem hbad
  · intro hok name i j hmem
    exact initLinksScan_success_wires exec parse (buildNetLinks nss) nss links
      hok name i j hmem

/-- Witness for C3: with `link0` referenced twice but no registered link the
pass errors; with the link registered, the pass records the wire invocation
of `link0` with namespace indices 0 and 1 in discovery order. -/
theorem C3_witness :
    (InitNamespacesLinks execAll parseAll [nsWithLink0, nsWithLink0'] []).1.isSome = true ∧
    ("link0", 0, 1) ∈
      (InitNamespacesLinks execAll parseAll [nsWithLink0, nsWithLink0'] [dFresh]).2.2.2.1 := by
  constructor
  · exact (C3_topology_builder_degree_and_wiring execAll parseAll
      [nsWithLink0, nsWithLink0'] []).1 "link0" [0, 1] (by decide)
      (Or.inr (Or.inr ⟨by decide, by decide⟩))
  · exact (C3_topology_builder_degree_and_wiring execAll parseAll
      [nsWithLink0, nsWithLink0'] [dFresh]).2 (by decide) "link0" 0 1 (by decide)

end Ayame



